import Mathlib

/-!
Verification of the LockIN process-enforcement core (src/core/app_blocker.py
and src/core/session_manager.py), shallowly embedded in Lean 4.

Process snapshots are lists of records, the blocker's mutable attributes are
the fields of an `AppBlocker` record, and every method of the Python classes
becomes a pure function from the old state (plus the snapshot and the outcomes
of the fallible OS process-control calls) to the new state together with the
lists of emitted signals and issued terminations.
-/

namespace LockIn

set_option maxRecDepth 8000

/-- Does the character list `n` occur at the head of `h` (char-by-char equality)? -/
def charsLead : List Char → List Char → Bool
  | [], _ => true
  | _ :: _, [] => false
  | a :: as, b :: bs => a == b && charsLead as bs

/-- Does the character list `n` occur anywhere inside `h`? -/
def charsHas (n : List Char) : List Char → Bool
  | [] => charsLead n []
  | c :: cs => charsLead n (c :: cs) || charsHas n cs

/-- Python's `needle in hay` substring test on strings. -/
def strContains (hay needle : String) : Bool :=
  charsHas needle.toList hay.toList

/-- Python's `str.lower()` (ASCII case folding suffices for the data involved). -/
def strLower (s : String) : String :=
  String.mk (s.toList.map Char.toLower)

/-- Does the string contain a path separator (`'/' in app or '\\' in app`)? -/
def hasSep (s : String) : Bool :=
  s.toList.any (fun c => c == '/' || c == '\\')

/-- The final path component, as `pathlib.Path(s).name`: trailing separators
are ignored and the part after the last separator is returned (both separator
styles are honored, abstracting over the host platform). -/
def pathName (s : String) : String :=
  let isSep : Char → Bool := fun c => c == '/' || c == '\\'
  let cs := (s.toList.reverse.dropWhile isSep)
  String.mk ((cs.takeWhile (fun c => !isSep c)).reverse)

/-- `AppBlocker.CRITICAL_PROCESSES` from src/core/app_blocker.py (lines 42-60). -/
def CRITICAL_PROCESSES : List String :=
  [ "system", "smss.exe", "csrss.exe", "wininit.exe", "services.exe",
    "lsass.exe", "winlogon.exe", "svchost.exe", "explorer.exe",
    "dwm.exe", "taskmgr.exe", "conhost.exe", "fontdrvhost.exe",
    "wmi provider host", "wmiprvse.exe", "sihost.exe", "taskhostw.exe",
    "registry", "memory compression", "system idle process",
    "systemd", "init", "kthreadd", "bash", "sh", "zsh", "fish",
    "ssh", "sshd", "dbus-daemon", "systemd-logind",
    "launchd", "kernel_task", "loginwindow", "WindowServer",
    "Dock", "Finder", "SystemUIServer",
    "python", "python.exe", "python3", "python3.exe", "pythonw.exe" ]

/-- `AppBlocker.SYSTEM_WHITELIST` from src/core/app_blocker.py (lines 64-147). -/
def SYSTEM_WHITELIST : List String :=
  [ "antimalware service executable", "windows defender",
    "securityhealthservice.exe", "msmpeng.exe", "msedge_pwahelper.exe",
    "windows security notification icon", "sgrmbroker.exe", "securityhealthsystray.exe",
    "securityhealthhost.exe",
    "runtimebroker.exe", "searchindexer.exe", "spoolsv.exe",
    "audiodg.exe", "consent.exe", "ctfmon.exe", "dllhost.exe",
    "backgroundtaskhost.exe", "applicationframehost.exe",
    "textinputhost.exe", "shellexperiencehost.exe", "searchapp.exe",
    "searchhost.exe", "startmenuexperiencehost.exe", "runtimebroker.exe",
    "lockapp.exe", "windows.warp.jitservice.exe", "usocoreworker.exe",
    "mobsync.exe", "unsecapp.exe", "wermgr.exe", "winrshost.exe",
    "windows update", "usoclient.exe", "tiworker.exe", "trustedinstaller.exe",
    "musnotification.exe", "musnotifyicon.exe",
    "nvdisplay.container.exe", "nvcontainer.exe", "amdrsserv.exe",
    "radiergw.exe", "igfxem.exe", "igfxtray.exe", "hkcmd.exe",
    "atkexcomsvc.exe", "asustptloader.exe", "winring0", "winring0.exe",
    "winring0x64.sys", "winring0_1_2_0", "frameviewsdk.exe",
    "useroobebroker.exe", "searchprotocolhost.exe", "searchfilterhost.exe",
    "compattelrunner.exe", "oobe.exe", "cloudexperiencehostbroker.exe",
    "cef", "cefsharp.browsersubprocess.exe", "cefsharp", "libcef.dll",
    "mscorsvw.exe", "ngen.exe", "ngentask.exe", "clr.dll",
    "dotnet.exe", "msbuild.exe",
    "gamebarpresencewriter.exe", "gamebar.exe", "xboxstat.exe",
    "smartscreen.exe", "fmapi.exe", "phoneexperiencehost.exe",
    "yourphone.exe", "windowsinternalshellexperiencehost.exe",
    "notificationcontroller.exe", "notificationplatform.exe",
    "actioncenter.exe", "cortana.exe", "msteams", "skype",
    "perfmon.exe", "resmon.exe", "mmc.exe", "eventvwr.exe",
    "certutil.exe", "netsh.exe", "powershell.exe", "cmd.exe",
    "powershell_ise.exe", "wscript.exe", "cscript.exe",
    "wudfhost.exe", "wudfrd.exe", "sdiagnhost.exe", "systemsettingsbroker.exe",
    "systemsettings.exe", "settingssynchost.exe",
    "wsl.exe", "wslhost.exe", "wslconfig.exe",
    "teamviewer", "anydesk", "logmein", "ammyy", "vnc",
    "googlecrashhandler.exe", "googleupdate.exe",
    "adobearm.exe", "adobeupdater.exe", "acrotray.exe",
    "dropbox.exe", "onedrive.exe", "icloud", "googledrive",
    "carbonblack", "crowdstrike", "sentinelone", "cylance",
    "nvstreamservice.exe", "nvstreamsvc.exe", "nvprofileupdaterservice64.exe",
    "nvidia web helper.exe", "nvidia share.exe", "shadowplay",
    "amd", "radeon", "ati", "amdow.exe", "radeonsoftware.exe",
    "iastoricon.exe", "realtekhdaudiomanager.exe", "nahimicservice.exe",
    "avast", "avg", "malwarebytes", "norton", "mcafee",
    "kaspersky", "bitdefender", "avira", "eset", "sophos",
    "trendmicro", "webroot", "comodo",
    "dell", "hp", "lenovo", "asus", "acer", "toshiba",
    "samsungmagician", "intelrapidstoragetechnology" ]

/-- Lower-cased critical set, as built on the fly in `_is_whitelisted` line 322. -/
def criticalLower : List String := CRITICAL_PROCESSES.map strLower

/-- Lower-cased system set, as built on the fly in `_is_whitelisted` line 325. -/
def systemLower : List String := SYSTEM_WHITELIST.map strLower

/-- One entry of a process snapshot: pid, name and executable path. A `None`
executable in the Python source is represented by the empty string, which the
source itself normalizes to (`proc.info.get('exe', '') or ''`). -/
structure Proc where
  pid : Nat
  name : String
  exe : String
deriving DecidableEq

/-- The mutable attributes of the `AppBlocker` object: the merged whitelist
(`whitelisted_apps`), the whitelisted-PID set (`whitelisted_processes`), the
monitoring flag and the known-process map (`known_processes`). Python sets and
dicts are embedded as lists used up to membership / key lookup. -/
structure AppBlocker where
  whitelistedApps : List String
  whitelistedProcesses : List Nat
  isMonitoring : Bool
  knownProcesses : List (Nat × String)
deriving DecidableEq

/-- Freshly constructed `AppBlocker.__init__` state. -/
def initBlocker : AppBlocker :=
  { whitelistedApps := [], whitelistedProcesses := [], isMonitoring := false,
    knownProcesses := [] }

/-- Key set of the embedded dict. -/
def mapKeys (m : List (Nat × String)) : List Nat := m.map (fun kv => kv.1)

/-- Python dict assignment `m[k] = v`. -/
def mapInsert (m : List (Nat × String)) (k : Nat) (v : String) : List (Nat × String) :=
  if k ∈ mapKeys m then m.map (fun kv => if kv.1 = k then (k, v) else kv)
  else m ++ [(k, v)]

/-- Python set insertion `s.add(x)`. -/
def setInsert (s : List Nat) (x : Nat) : List Nat :=
  if x ∈ s then s else s ++ [x]

/-- Loop body of `set_whitelisted_apps` (lines 188-195): add the lower-cased
entry, and also its bare lower-cased filename when it contains a separator. -/
def addEntry (s : List String) (a : String) : List String :=
  let s2 := s ++ [strLower a]
  if hasSep a then s2 ++ [strLower (pathName a)] else s2

/-- `AppBlocker.set_whitelisted_apps` (lines 178-203): lower-case every user
entry, additionally add the bare lower-cased filename of entries that contain
a path separator, then merge in the two built-in sets, lower-cased. -/
def setWhitelistedApps (b : AppBlocker) (apps : List String) : AppBlocker :=
  { b with whitelistedApps := apps.foldl addEntry [] ++ criticalLower ++ systemLower }

/-- `AppBlocker._is_whitelisted` (lines 288-328) as a function of the merged
whitelist alone (the method reads no other mutable state): unnamed processes
are allowed; then exact name match; then, only when the executable path is
non-empty, exact path match and the substring loop over path and name; then
the critical and system built-in sets. -/
def isAllowedBy (wl : List String) (name exe : String) : Bool :=
  if name = "" then true
  else
    let nl := strLower name
    if nl ∈ wl then true
    else if exe ≠ "" ∧ strLower exe ∈ wl then true
    else if exe ≠ "" ∧ wl.any (fun w => strContains (strLower exe) w || strContains nl w) = true then true
    else if nl ∈ criticalLower then true
    else if nl ∈ systemLower then true
    else false

/-- The method view of the classifier on the blocker state. -/
def isWhitelisted (b : AppBlocker) (name exe : String) : Bool :=
  isAllowedBy b.whitelistedApps name exe

/-- Failure modes of the OS process-control calls (psutil exceptions). -/
inductive PcErr where
  | noSuchProcess
  | accessDenied
deriving DecidableEq

/-- Outcome of the three process-control calls a single `_block_process`
invocation can make: whether `terminate()` raises, whether the bounded
`wait(timeout=1)` times out, and whether the subsequent `kill()` raises. -/
structure PcBehavior where
  terminateErr : Option PcErr
  waitTimesOut : Bool
  killErr : Option PcErr
deriving DecidableEq

/-- All process-control calls succeed and the process exits within the wait. -/
def behOk : PcBehavior := ⟨none, false, none⟩

/-- `AppBlocker._block_process` (lines 330-366). Returns the new state, the
emitted `app_blocked` signals and the pids to which a termination request was
actually issued. The allow decision is re-checked first; a `NoSuchProcess` or
`AccessDenied` raised by `terminate()` or `kill()` aborts the method body, so
the pid is then not recorded and no signal is emitted. -/
def blockProcess (b : AppBlocker) (pid : Nat) (name exe : String)
    (beh : PcBehavior) : AppBlocker × List (String × String) × List Nat :=
  if isWhitelisted b name exe then (b, [], [])
  else
    match beh.terminateErr with
    | some _ => (b, [], [])
    | none =>
      let recorded := { b with knownProcesses := mapInsert b.knownProcesses pid name }
      if beh.waitTimesOut then
        match beh.killErr with
        | some _ => (b, [], [pid])
        | none => (recorded, [(name, exe)], [pid])
      else (recorded, [(name, exe)], [pid])

/-- Loop body of `AppBlocker._scan_initial_processes` (lines 225-244): every
live process is recorded as known, and those classified allowed are added to
the whitelisted-PID set. -/
def scanInitialLoop (b : AppBlocker) : List Proc → AppBlocker
  | [] => b
  | p :: rest =>
    let b1 := { b with knownProcesses := mapInsert b.knownProcesses p.pid p.name }
    let b2 :=
      if isWhitelisted b1 p.name p.exe then
        { b1 with whitelistedProcesses := setInsert b1.whitelistedProcesses p.pid }
      else b1
    scanInitialLoop b2 rest

/-- `AppBlocker.start_monitoring` (lines 205-217): no-op when already
monitoring; otherwise set the flag, clear `known_processes` (and nothing
else), and run the initial scan over the live snapshot. -/
def startMonitoring (b : AppBlocker) (procs : List Proc) : AppBlocker :=
  if b.isMonitoring then b
  else scanInitialLoop { b with isMonitoring := true, knownProcesses := [] } procs

/-- `AppBlocker.stop_monitoring` (lines 219-223): drop the flag and clear
`known_processes`; the whitelisted-PID set is left untouched. -/
def stopMonitoring (b : AppBlocker) : AppBlocker :=
  { b with isMonitoring := false, knownProcesses := [] }

/-- `AppBlocker._cleanup_dead_processes` (lines 368-379): pids missing from
the live set are dropped from `known_processes`, and `whitelisted_processes`
discards exactly the pids so dropped — a pid kept only in
`whitelisted_processes` (never entered into `known_processes`) survives. -/
def cleanupDead (b : AppBlocker) (current : List Nat) : AppBlocker :=
  { b with
    knownProcesses := b.knownProcesses.filter (fun kv => kv.1 ∈ current),
    whitelistedProcesses := b.whitelistedProcesses.filter
      (fun pid => pid ∈ current ∨ pid ∉ mapKeys b.knownProcesses) }

/-- Result of one periodic scan: new state, emitted `app_blocked` signals and
pids to which a termination request was issued. -/
structure ScanResult where
  blocker : AppBlocker
  blockedEvents : List (String × String)
  terminated : List Nat
deriving DecidableEq

/-- Per-process loop body of `AppBlocker._check_processes` (lines 254-280):
skip pids already whitelisted, then pids already known; classify the rest,
whitelisting the allowed ones and handing the others to `_block_process`. -/
def checkLoop (beh : Nat → PcBehavior) (b : AppBlocker)
    (evs : List (String × String)) (ks : List Nat) :
    List Proc → AppBlocker × List (String × String) × List Nat
  | [] => (b, evs, ks)
  | p :: rest =>
    if p.pid ∈ b.whitelistedProcesses then checkLoop beh b evs ks rest
    else if p.pid ∈ mapKeys b.knownProcesses then checkLoop beh b evs ks rest
    else if isWhitelisted b p.name p.exe then
      checkLoop beh
        { b with knownProcesses := mapInsert b.knownProcesses p.pid p.name,
                 whitelistedProcesses := setInsert b.whitelistedProcesses p.pid }
        evs ks rest
    else
      let r := blockProcess b p.pid p.name p.exe (beh p.pid)
      checkLoop beh r.1 (evs ++ r.2.1) (ks ++ r.2.2) rest

/-- `AppBlocker._check_processes` (lines 246-286): returns unchanged when not
monitoring; otherwise runs the per-process loop over the snapshot and then
reconciles against the set of live pids. -/
def checkProcesses (b : AppBlocker) (procs : List Proc)
    (beh : Nat → PcBehavior) : ScanResult :=
  if !b.isMonitoring then ⟨b, [], []⟩
  else
    let r := checkLoop beh b [] [] procs
    ⟨cleanupDead r.1 (procs.map (fun p => p.pid)), r.2.1, r.2.2⟩

/-- A sequence of periodic scans: each element supplies the live snapshot and
the process-control outcomes for that tick; the issued terminations are
accumulated. -/
def runScans (b : AppBlocker) :
    List (List Proc × (Nat → PcBehavior)) → AppBlocker × List Nat
  | [] => (b, [])
  | s :: rest =>
    let r := checkProcesses b s.1 s.2
    let t := runScans r.blocker rest
    (t.1, r.terminated ++ t.2)

/-- Per-process loop body of `AppBlocker.close_all_non_whitelisted_apps`
(lines 689-708): allowed processes have their pid added to the
whitelisted-PID set (but not to `known_processes`); the rest get an immediate
`terminate()`, counted and reported unless the call raises. -/
def closeLoop (beh : Nat → Option PcErr) (b : AppBlocker) (cnt : Nat)
    (evs : List (String × String)) (ks : List Nat) :
    List Proc → AppBlocker × Nat × List (String × String) × List Nat
  | [] => (b, cnt, evs, ks)
  | p :: rest =>
    if isWhitelisted b p.name p.exe then
      closeLoop beh
        { b with whitelistedProcesses := setInsert b.whitelistedProcesses p.pid }
        cnt evs ks rest
    else
      match beh p.pid with
      | some _ => closeLoop beh b cnt evs ks rest
      | none => closeLoop beh b (cnt + 1) (evs ++ [(p.name, p.exe)]) (ks ++ [p.pid]) rest

/-- `AppBlocker.close_all_non_whitelisted_apps` (lines 679-713). -/
def closeAllNonWhitelistedApps (b : AppBlocker) (procs : List Proc)
    (beh : Nat → Option PcErr) : AppBlocker × Nat × List (String × String) × List Nat :=
  closeLoop beh b 0 [] [] procs

/-- `AppBlocker.get_blocked_count` (lines 715-717): the number of entries of
`known_processes` whose recorded name is truthy, i.e. non-empty. -/
def getBlockedCount (b : AppBlocker) : Nat :=
  (b.knownProcesses.filter (fun kv => kv.2 ≠ "")).length

/-- The `SessionState` constants of src/core/session_manager.py. -/
inductive SState where
  | idle
  | setup
  | active
  | paused
  | ending
  | completed
deriving DecidableEq

/-- The signals a `SessionManager` emits (src/core/session_manager.py lines
37-42); the blocker-error and aggregate-blocked signals are not needed by any
claim and are omitted. -/
inductive SMEvent where
  | sessionStarted (id : Option Int)
  | sessionUpdated (elapsed remaining : Int)
  | sessionEnded (id : Option Int) (emergency : Bool)
  | stateChanged (st : SState)
deriving DecidableEq

/-- The mutable session attributes of `SessionManager` (lines 57-64). Wall
clock instants are whole seconds; durations and times are `Int` so that the
Python subtraction `time.time() - start` is mirrored exactly. -/
structure SM where
  state : SState
  sessionId : Option Int
  sessionName : String
  sessionDuration : Int
  sessionStartTime : Option Nat
  whitelistedApps : List String
  appsBlockedCount : Nat
deriving DecidableEq

/-- The `SessionManager.__init__` session state. -/
def initSM : SM :=
  { state := SState.idle, sessionId := none, sessionName := "",
    sessionDuration := 0, sessionStartTime := none, whitelistedApps := [],
    appsBlockedCount := 0 }

/-- `SessionManager._change_state` (lines 371-380): update the state and emit
`state_changed` only when it actually changes. -/
def changeState (m : SM) (st : SState) : SM × List SMEvent :=
  if m.state ≠ st then ({ m with state := st }, [SMEvent.stateChanged st])
  else (m, [])

/-- `SessionManager.setup_session` (lines 75-111). `dbCreate` is the result
of the external `create_session` call: `some id` on success, `none` when the
store raises. The session fields are assigned before the store call, so a
store failure leaves them already overwritten; the state transition and the
session-id assignment happen only on success. -/
def setupSession (m : SM) (name : String) (durationMinutes : Nat)
    (apps : List String) (dbCreate : Option Int) : SM × Bool × List SMEvent :=
  if m.state ≠ SState.idle then (m, false, [])
  else
    let m1 := { m with sessionName := name,
                       sessionDuration := (durationMinutes : Int) * 60,
                       whitelistedApps := apps, appsBlockedCount := 0 }
    match dbCreate with
    | none => (m1, false, [])
    | some sid =>
      let m2 := { m1 with sessionId := some sid }
      let r := changeState m2 SState.setup
      (r.1, true, r.2)

/-- `SessionManager.start_session` (lines 113-145), session-state part: guard
on `SETUP`, record the wall-clock start instant, transition to `ACTIVE` and
emit `session_started`. (The enforcement-loop side effects operate on the
separately modelled `AppBlocker` state.) -/
def startSession (m : SM) (now : Nat) : SM × Bool × List SMEvent :=
  if m.state ≠ SState.setup then (m, false, [])
  else
    let m1 := { m with sessionStartTime := some now }
    let r := changeState m1 SState.active
    (r.1, true, r.2 ++ [SMEvent.sessionStarted r.1.sessionId])

/-- `SessionManager.get_elapsed_time` (lines 215-224). -/
def getElapsedTime (m : SM) (now : Nat) : Int :=
  match m.sessionStartTime with
  | none => 0
  | some st => (now : Int) - (st : Int)

/-- `SessionManager.get_remaining_time` (lines 226-235). -/
def getRemainingTime (m : SM) (now : Nat) : Int :=
  max 0 (m.sessionDuration - getElapsedTime m now)

/-- `SessionManager.end_session` (lines 147-193). `dbEndOk` and `dbUpdateOk`
tell whether the two external store calls succeed; a raise leaves the machine
stuck in `ENDING` with no `session_ended` emitted and a `false` return. -/
def endSession (m : SM) (emergency : Bool) (dbEndOk dbUpdateOk : Bool) :
    SM × Bool × List SMEvent :=
  if m.state ≠ SState.active ∧ m.state ≠ SState.paused then (m, false, [])
  else
    let r1 := changeState m SState.ending
    if dbEndOk = false then (r1.1, false, r1.2)
    else if dbUpdateOk = false then (r1.1, false, r1.2)
    else
      let r2 := changeState r1.1 SState.completed
      (r2.1, true, r1.2 ++ r2.2 ++ [SMEvent.sessionEnded r2.1.sessionId emergency])

/-- `SessionManager._update_session` (lines 323-336): a no-op outside
`ACTIVE`; otherwise emit `session_updated` and, when the remaining time has
reached zero, call `end_session(emergency_exit=False)`. -/
def updateSession (m : SM) (now : Nat) (dbEndOk dbUpdateOk : Bool) :
    SM × List SMEvent :=
  if m.state ≠ SState.active then (m, [])
  else
    let e := getElapsedTime m now
    let r := getRemainingTime m now
    if r ≤ 0 then
      let q := endSession m false dbEndOk dbUpdateOk
      (q.1, SMEvent.sessionUpdated e r :: q.2.2)
    else (m, [SMEvent.sessionUpdated e r])

/-- A sequence of timer ticks with the external store healthy. -/
def runUpdates (m : SM) : List Nat → SM × List SMEvent
  | [] => (m, [])
  | t :: ts =>
    let r1 := updateSession m t true true
    let r2 := runUpdates r1.1 ts
    (r2.1, r1.2 ++ r2.2)

/-- Recognizer for `session_ended` events. -/
def isEndedEv : SMEvent → Bool
  | SMEvent.sessionEnded _ _ => true
  | _ => false

/-- How many `session_ended` events a list of emissions holds. -/
def endedCount (evs : List SMEvent) : Nat :=
  (evs.filter isEndedEv).length

/-! ### Concrete scenario states used by the claim-level counterexamples -/

/-- The spec scenario whitelist `["notepad.exe"]`. -/
def scnWhitelist : List String := ["notepad.exe"]

/-- The spec scenario snapshot: pid 1 `notepad.exe`, pid 2 `calc.exe`. -/
def scnProcs : List Proc :=
  [⟨1, "notepad.exe", "/bin/notepad.exe"⟩, ⟨2, "calc.exe", "/bin/calc.exe"⟩]

/-- Blocker configured with the scenario whitelist. -/
def scnBlocker : AppBlocker := setWhitelistedApps initBlocker scnWhitelist

/-- Blocker after `start_monitoring` over the scenario snapshot. -/
def scnStarted : AppBlocker := startMonitoring scnBlocker scnProcs

/-- One periodic scan tick after the start, with healthy process control. -/
def scnScan : ScanResult := checkProcesses scnStarted scnProcs (fun _ => behOk)

/-- The one-shot `close_all_non_whitelisted_apps` sweep on the configured
blocker over the scenario snapshot. -/
def scnClose : AppBlocker × Nat × List (String × String) × List Nat :=
  closeAllNonWhitelistedApps scnBlocker scnProcs (fun _ => none)

/-- First run of the C5 trace: monitoring started while pid 1 is live. -/
def c5Run1 : AppBlocker :=
  startMonitoring scnBlocker [⟨1, "notepad.exe", "/bin/notepad.exe"⟩]

/-- Second run of the C5 trace: stop, then start again with pid 1 gone. -/
def c5Run2 : AppBlocker := startMonitoring (stopMonitoring c5Run1) []

/-- C4 trace: a whitelisted pid 5 observed only by the one-shot sweep. -/
def c4AfterClose : AppBlocker :=
  (closeAllNonWhitelistedApps scnBlocker [⟨5, "notepad.exe", "/x/notepad.exe"⟩]
    (fun _ => none)).1

/-- C4 trace: monitoring then starts with pid 5 already gone. -/
def c4Started : AppBlocker := startMonitoring c4AfterClose []

/-- C4 trace: one periodic scan with an empty live set. -/
def c4Scan : ScanResult := checkProcesses c4Started [] (fun _ => behOk)

/-- C6 trace: a blocker configured with an empty user whitelist. -/
def c6Blocker : AppBlocker := setWhitelistedApps initBlocker []

/-- C6 trace: `_block_process` on pid 7 whose `terminate()` raises
`NoSuchProcess`. -/
def c6Result : AppBlocker × List (String × String) × List Nat :=
  blockProcess c6Blocker 7 "calc.exe" "/bin/calc.exe"
    ⟨some PcErr.noSuchProcess, false, none⟩

/-- C8 trace: an idle manager with a previous session name on record. -/
def c8SM : SM := { initSM with sessionName := "old" }

/-- C8 trace: `setup_session` whose `create_session` store call raises. -/
def c8Result : SM × Bool × List SMEvent := setupSession c8SM "Study" 25 [] none

/-- C9 witness state: an active 25-minute session started at instant 0. -/
def c9SM : SM :=
  { initSM with state := SState.active, sessionId := some 1,
                sessionDuration := 1500, sessionStartTime := some 0 }

/-! ### Basic lemmas about the embedded set and dict operations -/

theorem setInsert_mem (s : List Nat) (x P : Nat) :
    P ∈ setInsert s x ↔ P ∈ s ∨ P = x := by
  unfold setInsert
  by_cases h : x ∈ s
  · simp only [if_pos h]
    constructor
    · exact Or.inl
    · rintro (hp | rfl)
      · exact hp
      · exact h
  · simp [if_neg h, List.mem_append]

theorem mapKeys_mapInsert (m : List (Nat × String)) (k : Nat) (v : String) (P : Nat) :
    P ∈ mapKeys (mapInsert m k v) ↔ P ∈ mapKeys m ∨ P = k := by
  unfold mapInsert
  by_cases h : k ∈ mapKeys m
  · simp only [if_pos h]
    have hmap : mapKeys (m.map (fun kv => if kv.1 = k then (k, v) else kv)) = mapKeys m := by
      unfold mapKeys
      rw [List.map_map]
      apply List.map_congr_left
      intro kv _
      by_cases hk : kv.1 = k
      · simp [hk]
      · simp [hk]
    rw [hmap]
    constructor
    · exact Or.inl
    · rintro (hp | rfl)
      · exact hp
      · exact h
  · simp only [if_neg h]
    unfold mapKeys
    simp [List.mem_append]

theorem mapKeys_mapInsert_mono (m : List (Nat × String)) (k : Nat) (v : String)
    (P : Nat) (h : P ∈ mapKeys m) : P ∈ mapKeys (mapInsert m k v) :=
  (mapKeys_mapInsert m k v P).2 (Or.inl h)

/-! ### Lemmas about the initial scan -/

theorem scanInitialLoop_wlApps (procs : List Proc) (b : AppBlocker) :
    (scanInitialLoop b procs).whitelistedApps = b.whitelistedApps := by
  induction procs generalizing b with
  | nil => rfl
  | cons p rest ih =>
    simp only [scanInitialLoop]
    by_cases h : isWhitelisted { b with knownProcesses := mapInsert b.knownProcesses p.pid p.name } p.name p.exe = true
    · rw [if_pos h, ih]
    · rw [if_neg h, ih]

theorem scanInitialLoop_wlProcs (procs : List Proc) (b : AppBlocker) (P : Nat) :
    P ∈ (scanInitialLoop b procs).whitelistedProcesses ↔
      P ∈ b.whitelistedProcesses ∨
        ∃ p ∈ procs, p.pid = P ∧ isAllowedBy b.whitelistedApps p.name p.exe = true := by
  induction procs generalizing b with
  | nil => simp [scanInitialLoop]
  | cons p rest ih =>
    simp only [scanInitialLoop]
    by_cases h : isWhitelisted { b with knownProcesses := mapInsert b.knownProcesses p.pid p.name } p.name p.exe = true
    · rw [if_pos h]
      rw [ih]
      simp only [setInsert_mem]
      constructor
      · rintro ((hp | rfl) | ⟨q, hq, hpid, hal⟩)
        · exact Or.inl hp
        · exact Or.inr ⟨p, List.mem_cons_self p rest, rfl, h⟩
        · exact Or.inr ⟨q, List.mem_cons_of_mem p hq, hpid, hal⟩
      · rintro (hp | ⟨q, hq, hpid, hal⟩)
        · exact Or.inl (Or.inl hp)
        · rcases List.mem_cons.1 hq with rfl | hq2
          · exact Or.inl (Or.inr hpid.symm)
          · exact Or.inr ⟨q, hq2, hpid, hal⟩
    · rw [if_neg h]
      rw [ih]
      have hfa : isAllowedBy b.whitelistedApps p.name p.exe = false := by
        simpa [isWhitelisted] using h
      constructor
      · rintro (hp | ⟨q, hq, hpid, hal⟩)
        · exact Or.inl hp
        · exact Or.inr ⟨q, List.mem_cons_of_mem p hq, hpid, hal⟩
      · rintro (hp | ⟨q, hq, hpid, hal⟩)
        · exact Or.inl hp
        · rcases List.mem_cons.1 hq with rfl | hq2
          · rw [hfa] at hal
            exact absurd hal (by simp)
          · exact Or.inr ⟨q, hq2, hpid, hal⟩

/-! ### Claim C5 -/

/-- Claim C5 counterexample: in the concrete two-run trace, pid 1 was
whitelisted in the first run and is no longer live when the second
`start_monitoring` scans, yet it is still in the whitelisted-PID set after the
second start — the set is not rebuilt from scratch, refuting the claim that
after stop+start it contains exactly the pids the new initial scan allowed. -/
theorem claimC5_counterexample :
    (1 : Nat) ∈ c5Run2.whitelistedProcesses ∧
      ¬ ∃ p ∈ ([] : List Proc), p.pid = 1 := by
  constructor
  · decide
  · rintro ⟨p, hp, _⟩
    exact absurd hp (List.not_mem_nil p)

/-- Claim C5 amended: after `stop()` followed by `start()`, the
whitelisted-PID set is the union of the set retained from before (neither
`stop_monitoring` nor `start_monitoring` clears it) and the pids the new
initial scan classified as allowed. -/
theorem claimC5_amended (b : AppBlocker) (procs : List Proc) (P : Nat) :
    P ∈ (startMonitoring (stopMonitoring b) procs).whitelistedProcesses ↔
      P ∈ b.whitelistedProcesses ∨
        ∃ p ∈ procs, p.pid = P ∧ isAllowedBy b.whitelistedApps p.name p.exe = true := by
  unfold startMonitoring stopMonitoring
  simp only [if_neg (by simp : ¬ ((false : Bool) = true))]
  rw [scanInitialLoop_wlProcs]

/-! ### Lemmas about the whitelist configuration and the classifier -/

theorem mem_foldl_addEntry_init (apps : List String) (init : List String)
    (x : String) (h : x ∈ init) : x ∈ apps.foldl addEntry init := by
  induction apps generalizing init with
  | nil => exact h
  | cons a rest ih =>
    simp only [List.foldl_cons]
    apply ih
    unfold addEntry
    by_cases hs : hasSep a = true
    · simp only [if_pos hs, List.mem_append]
      exact Or.inl (Or.inl h)
    · simp only [if_neg hs, List.mem_append]
      exact Or.inl h

theorem mem_foldl_addEntry (apps : List String) (init : List String)
    (w : String) (h : w ∈ apps) : strLower w ∈ apps.foldl addEntry init := by
  induction apps generalizing init with
  | nil => cases h
  | cons a rest ih =>
    rcases List.mem_cons.1 h with rfl | h2
    · simp only [List.foldl_cons]
      apply mem_foldl_addEntry_init
      unfold addEntry
      by_cases hs : hasSep w = true
      · simp only [if_pos hs, List.mem_append]
        exact Or.inl (Or.inr (List.mem_singleton.2 rfl))
      · simp only [if_neg hs, List.mem_append]
        exact Or.inr (List.mem_singleton.2 rfl)
    · simp only [List.foldl_cons]
      exact ih _ h2

theorem setWhitelistedApps_mem (b : AppBlocker) (apps : List String) (w : String)
    (h : w ∈ apps) : strLower w ∈ (setWhitelistedApps b apps).whitelistedApps := by
  unfold setWhitelistedApps
  simp only [List.mem_append]
  exact Or.inl (Or.inl (mem_foldl_addEntry apps [] w h))

theorem isAllowedBy_of_substring (wl : List String) (name exe w : String)
    (hexe : exe ≠ "") (hw : w ∈ wl)
    (hsub : strContains (strLower exe) w = true ∨ strContains (strLower name) w = true) :
    isAllowedBy wl name exe = true := by
  unfold isAllowedBy
  by_cases h0 : name = ""
  · simp [h0]
  · simp only [if_neg h0]
    by_cases h1 : strLower name ∈ wl
    · simp [h1]
    · simp only [if_pos, if_neg h1]
      by_cases h2 : exe ≠ "" ∧ strLower exe ∈ wl
      · simp [h2]
      · simp only [if_neg h2]
        have h3 : exe ≠ "" ∧
            (wl.any fun v => strContains (strLower exe) v || strContains (strLower name) v) = true := by
          refine ⟨hexe, ?_⟩
          rw [List.any_eq_true]
          refine ⟨w, hw, ?_⟩
          rcases hsub with h | h <;> simp [h]
        simp [h3]

/-! ### Claim C2 -/

/-- Claim C2 counterexample: with configured whitelist `["note"]`, the process
named `notepad.exe` with an empty executable path contains the entry `note` as
a lower-cased substring of its name, yet the classifier blocks it — the
substring rule is only reached when the executable path is non-empty, so the
claim's quantification over empty-path processes fails. -/
theorem claimC2_counterexample :
    "note" ∈ ["note"] ∧
      strContains (strLower "notepad.exe") (strLower "note") = true ∧
      isWhitelisted (setWhitelistedApps initBlocker ["note"]) "notepad.exe" "" = false := by
  decide

/-- Claim C2 amended: for every configured whitelist entry `w` and every
process whose executable path is non-empty and whose name or path,
lower-cased, contains the lower-cased `w` as a substring, the classifier
returns allowed. (With an empty executable path the substring rule does not
apply.) -/
theorem claimC2_amended (b : AppBlocker) (apps : List String) (w name exe : String)
    (hw : w ∈ apps) (hexe : exe ≠ "")
    (hsub : strContains (strLower name) (strLower w) = true ∨
            strContains (strLower exe) (strLower w) = true) :
    isWhitelisted (setWhitelistedApps b apps) name exe = true :=
  isAllowedBy_of_substring _ name exe (strLower w) hexe
    (setWhitelistedApps_mem b apps w hw) hsub.symm

/-- Claim C2 witness: whitelisting `chrome` allows a helper process whose name
and path both contain the entry. -/
theorem claimC2_witness :
    isWhitelisted (setWhitelistedApps initBlocker ["chrome"]) "chrome_helper"
      "/opt/google/chrome/chrome_helper" = true :=
  claimC2_amended initBlocker ["chrome"] "chrome" "chrome_helper"
    "/opt/google/chrome/chrome_helper" (by decide) (by decide)
    (Or.inl (by decide))

theorem isAllowedBy_of_critical (wl : List String) (name exe : String)
    (h : strLower name ∈ criticalLower) : isAllowedBy wl name exe = true := by
  unfold isAllowedBy
  by_cases h0 : name = ""
  · simp [h0]
  · simp only [if_neg h0]
    by_cases h1 : strLower name ∈ wl
    · simp [h1]
    · simp only [if_neg h1]
      by_cases h2 : exe ≠ "" ∧ strLower exe ∈ wl
      · simp [h2]
      · simp only [if_neg h2]
        by_cases h3 : exe ≠ "" ∧
            (wl.any fun v => strContains (strLower exe) v || strContains (strLower name) v) = true
        · simp [h3]
        · simp only [if_neg h3]
          simp [h]

/-! ### Structural lemmas about `_block_process` and the periodic scan -/

theorem blockProcess_wlApps (b : AppBlocker) (pid : Nat) (name exe : String)
    (beh : PcBehavior) :
    (blockProcess b pid name exe beh).1.whitelistedApps = b.whitelistedApps := by
  unfold blockProcess
  by_cases h : isWhitelisted b name exe = true
  · simp [h]
  · simp only [if_neg h]
    rcases ht : beh.terminateErr with _ | e
    · by_cases hw : beh.waitTimesOut = true
      · rcases hk : beh.killErr with _ | e2 <;> simp [hw, hk]
      · simp [Bool.of_not_eq_true hw]
    · rfl

theorem blockProcess_known_mono (b : AppBlocker) (pid : Nat) (name exe : String)
    (beh : PcBehavior) (P : Nat) (h : P ∈ mapKeys b.knownProcesses) :
    P ∈ mapKeys (blockProcess b pid name exe beh).1.knownProcesses := by
  unfold blockProcess
  by_cases hwl : isWhitelisted b name exe = true
  · simpa [hwl] using h
  · simp only [if_neg hwl]
    rcases ht : beh.terminateErr with _ | e
    · by_cases hw : beh.waitTimesOut = true
      · rcases hk : beh.killErr with _ | e2
        · simpa [hw, hk] using mapKeys_mapInsert_mono b.knownProcesses pid name P h
        · simpa [hw, hk] using h
      · simpa [Bool.of_not_eq_true hw] using mapKeys_mapInsert_mono b.knownProcesses pid name P h
    · exact h

theorem blockProcess_kills (b : AppBlocker) (pid : Nat) (name exe : String)
    (beh : PcBehavior) (q : Nat) (h : q ∈ (blockProcess b pid name exe beh).2.2) :
    q = pid := by
  unfold blockProcess at h
  by_cases hwl : isWhitelisted b name exe = true
  · simp [hwl] at h
  · simp only [if_neg hwl] at h
    rcases ht : beh.terminateErr with _ | e <;> rw [ht] at h
    · by_cases hw : beh.waitTimesOut = true
      · rcases hk : beh.killErr with _ | e2 <;> simp [hw, hk] at h <;> exact h
      · simp [Bool.of_not_eq_true hw] at h
        exact h
    · simp at h

theorem checkLoop_wlApps (procs : List Proc) (beh : Nat → PcBehavior)
    (b : AppBlocker) (evs : List (String × String)) (ks : List Nat) :
    (checkLoop beh b evs ks procs).1.whitelistedApps = b.whitelistedApps := by
  induction procs generalizing b evs ks with
  | nil => rfl
  | cons p rest ih =>
    simp only [checkLoop]
    by_cases h1 : p.pid ∈ b.whitelistedProcesses
    · rw [if_pos h1]
      exact ih b evs ks
    · rw [if_neg h1]
      by_cases h2 : p.pid ∈ mapKeys b.knownProcesses
      · rw [if_pos h2]
        exact ih b evs ks
      · rw [if_neg h2]
        by_cases h3 : isWhitelisted b p.name p.exe = true
        · rw [if_pos h3]
          rw [ih]
        · rw [if_neg h3]
          rw [ih]
          exact blockProcess_wlApps b p.pid p.name p.exe (beh p.pid)

theorem checkLoop_kills (procs : List Proc) (beh : Nat → PcBehavior)
    (b : AppBlocker) (evs : List (String × String)) (ks : List Nat) (q : Nat)
    (h : q ∈ (checkLoop beh b evs ks procs).2.2) :
    q ∈ ks ∨ ∃ p ∈ procs, p.pid = q ∧ isAllowedBy b.whitelistedApps p.name p.exe = false := by
  induction procs generalizing b evs ks with
  | nil => exact Or.inl h
  | cons p rest ih =>
    simp only [checkLoop] at h
    by_cases h1 : p.pid ∈ b.whitelistedProcesses
    · rw [if_pos h1] at h
      rcases ih b evs ks h with hk | ⟨p2, hp2, hpid, hal⟩
      · exact Or.inl hk
      · exact Or.inr ⟨p2, List.mem_cons_of_mem p hp2, hpid, hal⟩
    · rw [if_neg h1] at h
      by_cases h2 : p.pid ∈ mapKeys b.knownProcesses
      · rw [if_pos h2] at h
        rcases ih b evs ks h with hk | ⟨p2, hp2, hpid, hal⟩
        · exact Or.inl hk
        · exact Or.inr ⟨p2, List.mem_cons_of_mem p hp2, hpid, hal⟩
      · rw [if_neg h2] at h
        by_cases h3 : isWhitelisted b p.name p.exe = true
        · rw [if_pos h3] at h
          rcases ih _ evs ks h with hk | ⟨p2, hp2, hpid, hal⟩
          · exact Or.inl hk
          · exact Or.inr ⟨p2, List.mem_cons_of_mem p hp2, hpid, hal⟩
        · rw [if_neg h3] at h
          rcases ih _ _ _ h with hk | ⟨p2, hp2, hpid, hal⟩
          · rcases List.mem_append.1 hk with hk1 | hk2
            · exact Or.inl hk1
            · refine Or.inr ⟨p, List.mem_cons_self p rest, ?_, ?_⟩
              · exact (blockProcess_kills b p.pid p.name p.exe (beh p.pid) q hk2).symm
              · exact Bool.of_not_eq_true h3
          · rw [blockProcess_wlApps] at hal
            exact Or.inr ⟨p2, List.mem_cons_of_mem p hp2, hpid, hal⟩

theorem checkProcesses_wlApps (b : AppBlocker) (procs : List Proc)
    (beh : Nat → PcBehavior) :
    (checkProcesses b procs beh).blocker.whitelistedApps = b.whitelistedApps := by
  unfold checkProcesses
  by_cases hm : (!b.isMonitoring) = true
  · simp [hm]
  · simp only [if_neg hm]
    exact checkLoop_wlApps procs beh b [] []

theorem checkProcesses_kills (b : AppBlocker) (procs : List Proc)
    (beh : Nat → PcBehavior) (q : Nat)
    (h : q ∈ (checkProcesses b procs beh).terminated) :
    ∃ p ∈ procs, p.pid = q ∧ isAllowedBy b.whitelistedApps p.name p.exe = false := by
  unfold checkProcesses at h
  by_cases hm : (!b.isMonitoring) = true
  · simp [hm] at h
  · simp only [if_neg hm] at h
    rcases checkLoop_kills procs beh b [] [] q h with hk | hex
    · cases hk
    · exact hex

/-! ### Claim C3 -/

/-- Claim C3: a process whose name is case-insensitively in
`CRITICAL_PROCESSES` is classified allowed by `_is_whitelisted` under every
whitelist, the empty one included; consequently, across any sequence of
periodic scans with any snapshots and any process-control outcomes, a pid that
only ever appears under such a critical name is never issued a termination. -/
theorem claimC3 :
    (∀ (wl : List String) (name exe : String), strLower name ∈ criticalLower →
        isAllowedBy wl name exe = true) ∧
    (∀ (b : AppBlocker) (scans : List (List Proc × (Nat → PcBehavior))) (P : Nat),
        (∀ s ∈ scans, ∀ p ∈ s.1, p.pid = P → strLower p.name ∈ criticalLower) →
        P ∉ (runScans b scans).2) := by
  constructor
  · exact fun wl name exe h => isAllowedBy_of_critical wl name exe h
  · intro b scans P hcrit
    induction scans generalizing b with
    | nil => simp [runScans]
    | cons s rest ih =>
      simp only [runScans, List.mem_append]
      rintro (h1 | h2)
      · rcases checkProcesses_kills b s.1 s.2 P h1 with ⟨p, hp, hpid, hal⟩
        have : isAllowedBy b.whitelistedApps p.name p.exe = true :=
          isAllowedBy_of_critical _ p.name p.exe
            (hcrit s (List.mem_cons_self s rest) p hp hpid)
        rw [this] at hal
        cases hal
      · refine ih (checkProcesses b s.1 s.2).blocker ?_ h2
        intro s2 hs2 p hp hpid
        exact hcrit s2 (List.mem_cons_of_mem s hs2) p hp hpid

/-- Claim C3 witness: with an empty whitelist, `systemd` is allowed, and pid 1
seen as `systemd` in a concrete scan is not terminated. -/
theorem claimC3_witness :
    isAllowedBy [] "systemd" "/usr/lib/systemd/systemd" = true ∧
      (1 : Nat) ∉ (runScans initBlocker
        [([⟨1, "systemd", "/usr/lib/systemd/systemd"⟩], fun _ => behOk)]).2 := by
  constructor
  · exact claimC3.1 [] "systemd" "/usr/lib/systemd/systemd" (by decide)
  · exact claimC3.2 initBlocker
      [([⟨1, "systemd", "/usr/lib/systemd/systemd"⟩], fun _ => behOk)] 1
      (by
        intro s hs p hp hpid
        rcases List.mem_singleton.1 hs with rfl
        rcases List.mem_singleton.1 hp with rfl
        decide)

/-! ### Claim C1 -/

/-- Claim C1 counterexample: in the spec scenario (whitelist
`["notepad.exe"]`, live pids 1 and 2), the initial scan does put pid 1 into
the whitelisted-PID set, but it also records pid 2 into `known_processes`, so
the subsequent periodic scan skips pid 2 as already known: nothing is
terminated and no `app_blocked` event is emitted, refuting the claim that the
tick terminates pid 2 and the blocked count becomes 1. -/
theorem claimC1_counterexample :
    (1 : Nat) ∈ scnStarted.whitelistedProcesses ∧
      (2 : Nat) ∈ mapKeys scnStarted.knownProcesses ∧
      scnScan.terminated = [] ∧
      scnScan.blockedEvents = [] := by
  decide

/-- Claim C1 amended: after the initial scan pid 1 is in the whitelisted-PID
set and pid 2 (not whitelisted) is recorded in `known_processes`; the
subsequent periodic scan tick therefore terminates nothing and emits no
blocked event, leaving the event-driven blocked count at 0. Pid 2 is
terminated — with exactly one blocked event for `calc.exe` and a returned
count of 1 — only by the one-shot `close_all_non_whitelisted_apps` sweep,
which the session start invokes before monitoring begins. -/
theorem claimC1_amended :
    (1 : Nat) ∈ scnStarted.whitelistedProcesses ∧
      (2 : Nat) ∉ scnStarted.whitelistedProcesses ∧
      (2 : Nat) ∈ mapKeys scnStarted.knownProcesses ∧
      scnScan.terminated = [] ∧
      scnScan.blockedEvents = [] ∧
      scnClose.2.2.2 = [2] ∧
      scnClose.2.2.1 = [("calc.exe", "/bin/calc.exe")] ∧
      scnClose.2.1 = 1 := by
  decide

/-! ### Claim C4 -/

theorem checkLoop_known_mono (procs : List Proc) (beh : Nat → PcBehavior)
    (b : AppBlocker) (evs : List (String × String)) (ks : List Nat) (P : Nat)
    (h : P ∈ mapKeys b.knownProcesses) :
    P ∈ mapKeys (checkLoop beh b evs ks procs).1.knownProcesses := by
  induction procs generalizing b evs ks with
  | nil => exact h
  | cons p rest ih =>
    simp only [checkLoop]
    by_cases h1 : p.pid ∈ b.whitelistedProcesses
    · rw [if_pos h1]
      exact ih b evs ks h
    · rw [if_neg h1]
      by_cases h2 : p.pid ∈ mapKeys b.knownProcesses
      · rw [if_pos h2]
        exact ih b evs ks h
      · rw [if_neg h2]
        by_cases h3 : isWhitelisted b p.name p.exe = true
        · rw [if_pos h3]
          exact ih _ evs ks (mapKeys_mapInsert_mono _ p.pid p.name P h)
        · rw [if_neg h3]
          exact ih _ _ _ (blockProcess_known_mono b p.pid p.name p.exe (beh p.pid) P h)

/-- Claim C4 counterexample: pid 5 entered the whitelisted-PID set through
the one-shot `close_all_non_whitelisted_apps` sweep (which records it in no
other table); it is absent from the live set of the next periodic scan, yet
it is still in the whitelisted-PID set afterwards, because the cleanup only
discards pids found in `known_processes`. -/
theorem claimC4_counterexample :
    (5 : Nat) ∈ c4Started.whitelistedProcesses ∧
      c4Started.knownProcesses = [] ∧
      c4Scan.blocker.whitelistedProcesses = c4Started.whitelistedProcesses ∧
      (5 : Nat) ∈ c4Scan.blocker.whitelistedProcesses := by
  decide

/-- Claim C4 amended: the cleanup guarantee holds for pids tracked in
`KnownProcessTable`: if a pid with an entry in `known_processes` is absent
from the live set observed by a periodic scan, then after that scan it is in
neither `known_processes` nor the whitelisted-PID set. (A pid present only in
the whitelisted-PID set — as left by `close_all_non_whitelisted_apps` — is
not removed.) -/
theorem claimC4_amended (b : AppBlocker) (procs : List Proc) (beh : Nat → PcBehavior)
    (P : Nat) (hmon : b.isMonitoring = true)
    (habs : P ∉ procs.map (fun p => p.pid))
    (hknown : P ∈ mapKeys b.knownProcesses) :
    P ∉ mapKeys (checkProcesses b procs beh).blocker.knownProcesses ∧
      P ∉ (checkProcesses b procs beh).blocker.whitelistedProcesses := by
  unfold checkProcesses
  rw [if_neg (by simp [hmon])]
  have hk2 := checkLoop_known_mono procs beh b [] [] P hknown
  constructor
  · intro hmem
    simp only [cleanupDead, mapKeys, List.mem_map, List.mem_filter,
      decide_eq_true_eq] at hmem
    rcases hmem with ⟨kv, ⟨_, hcur⟩, hfst⟩
    rw [hfst] at hcur
    exact habs (List.mem_map.2 hcur)
  · intro hmem
    simp only [cleanupDead, List.mem_filter, decide_eq_true_eq] at hmem
    rcases hmem with ⟨_, hcur | hnk⟩
    · exact habs hcur
    · exact hnk hk2

/-- Claim C4 witness: a tracked pid 3 absent from an empty live snapshot is
gone from both tables after the scan. -/
theorem claimC4_witness :
    (3 : Nat) ∉ mapKeys (checkProcesses
        { initBlocker with isMonitoring := true, knownProcesses := [(3, "calc.exe")] }
        [] (fun _ => behOk)).blocker.knownProcesses ∧
      (3 : Nat) ∉ (checkProcesses
        { initBlocker with isMonitoring := true, knownProcesses := [(3, "calc.exe")] }
        [] (fun _ => behOk)).blocker.whitelistedProcesses :=
  claimC4_amended
    { initBlocker with isMonitoring := true, knownProcesses := [(3, "calc.exe")] }
    [] (fun _ => behOk) 3 (by decide) (by decide) (by decide)

/-! ### Claim C6 -/

/-- Claim C6 counterexample: pid 7 is not whitelisted, its `terminate()` call
raises `NoSuchProcess`, and the exception handler then skips the rest of
`_block_process`: the pid is not recorded into `known_processes` and no
blocked event is emitted — refuting the claim that recording and emission
happen regardless, including on no-such-process failures. -/
theorem claimC6_counterexample :
    isWhitelisted c6Blocker "calc.exe" "/bin/calc.exe" = false ∧
      c6Result = (c6Blocker, [], []) ∧
      (7 : Nat) ∉ mapKeys c6Blocker.knownProcesses := by
  decide

/-- Claim C6 amended: when the process-control calls succeed — `terminate()`
does not raise, and if the bounded wait times out the `kill()` does not raise
— a non-whitelisted pid is recorded into `known_processes` and one blocked
event with the app's name and path is emitted, regardless of whether the
graceful or the force-kill path was taken. When `terminate()` raises
no-such-process or access-denied the failure is absorbed silently but nothing
is recorded and nothing emitted; when the force `kill()` raises, the
termination was already issued but the pid is likewise not recorded and no
event is emitted. -/
theorem claimC6_amended (b : AppBlocker) (pid : Nat) (name exe : String)
    (beh : PcBehavior) :
    (isWhitelisted b name exe = false → beh.terminateErr = none →
      (beh.waitTimesOut = true → beh.killErr = none) →
      blockProcess b pid name exe beh =
        ({ b with knownProcesses := mapInsert b.knownProcesses pid name },
          [(name, exe)], [pid])) ∧
    (∀ e, beh.terminateErr = some e →
      blockProcess b pid name exe beh = (b, [], [])) ∧
    (∀ e, isWhitelisted b name exe = false → beh.terminateErr = none →
      beh.waitTimesOut = true → beh.killErr = some e →
      blockProcess b pid name exe beh = (b, [], [pid])) := by
  refine ⟨?_, ?_, ?_⟩
  · intro hwl ht hk
    unfold blockProcess
    rw [if_neg (by simp [hwl]), ht]
    by_cases hw : beh.waitTimesOut = true
    · rw [hk hw]
      simp [hw]
    · simp [Bool.of_not_eq_true hw]
  · intro e ht
    unfold blockProcess
    by_cases hwl : isWhitelisted b name exe = true
    · rw [if_pos hwl]
    · rw [if_neg hwl, ht]
  · intro e hwl ht hw hk
    unfold blockProcess
    rw [if_neg (by simp [hwl]), ht, hk]
    simp [hw]

/-- Claim C6 witness: at pid 7 named `calc.exe`, the healthy path records the
pid and emits the event, while an access-denied `terminate()` leaves the
state untouched with no event. -/
theorem claimC6_witness :
    blockProcess c6Blocker 7 "calc.exe" "/bin/calc.exe" behOk =
        ({ c6Blocker with knownProcesses := mapInsert c6Blocker.knownProcesses 7 "calc.exe" },
          [("calc.exe", "/bin/calc.exe")], [7]) ∧
      blockProcess c6Blocker 7 "calc.exe" "/bin/calc.exe"
          ⟨some PcErr.accessDenied, false, none⟩ = (c6Blocker, [], []) :=
  ⟨(claimC6_amended c6Blocker 7 "calc.exe" "/bin/calc.exe" behOk).1
      (by decide) rfl (fun _ => rfl),
    (claimC6_amended c6Blocker 7 "calc.exe" "/bin/calc.exe"
        ⟨some PcErr.accessDenied, false, none⟩).2.1 PcErr.accessDenied rfl⟩

/-! ### Claim C7 -/

theorem changeState_state (m : SM) (st : SState) :
    (changeState m st).1.state = st := by
  unfold changeState
  by_cases h : m.state ≠ st
  · rw [if_pos h]
  · rw [if_neg h]
    exact not_not.1 h

theorem endSession_true_completed (m m1 : SM) (em : Bool) (d1 d2 : Bool)
    (evs : List SMEvent) (h : endSession m em d1 d2 = (m1, true, evs)) :
    m1.state = SState.completed := by
  unfold endSession at h
  by_cases hg : m.state ≠ SState.active ∧ m.state ≠ SState.paused
  · rw [if_pos hg] at h
    simp at h
  · rw [if_neg hg] at h
    by_cases h1 : d1 = false
    · rw [if_pos h1] at h
      simp at h
    · rw [if_neg h1] at h
      by_cases h2 : d2 = false
      · rw [if_pos h2] at h
        simp at h
      · rw [if_neg h2] at h
        have hm1 := congrArg (fun t : SM × Bool × List SMEvent => t.1.state) h
        dsimp at hm1
        rw [changeState_state] at hm1
        exact hm1.symm

/-- Claim C7: every session operation invoked outside its valid source state
(`setup_session` while not IDLE, `start_session` while not SETUP,
`end_session` while neither ACTIVE nor PAUSED) returns failure with the
state unchanged and no emitted event; in particular, after a successful
`end_session` the machine is COMPLETED, so an immediately repeated
`end_session` fails harmlessly and emits no duplicate session-ended event. -/
theorem claimC7 :
    (∀ (m : SM) (name : String) (dm : Nat) (apps : List String) (db : Option Int),
        m.state ≠ SState.idle → setupSession m name dm apps db = (m, false, [])) ∧
    (∀ (m : SM) (now : Nat), m.state ≠ SState.setup →
        startSession m now = (m, false, [])) ∧
    (∀ (m : SM) (em d1 d2 : Bool), m.state ≠ SState.active → m.state ≠ SState.paused →
        endSession m em d1 d2 = (m, false, [])) ∧
    (∀ (m m1 : SM) (em : Bool) (evs : List SMEvent) (d1 d2 em2 d3 d4 : Bool),
        endSession m em d1 d2 = (m1, true, evs) →
        endSession m1 em2 d3 d4 = (m1, false, [])) := by
  refine ⟨?_, ?_, ?_, ?_⟩
  · intro m name dm apps db h
    unfold setupSession
    rw [if_pos h]
  · intro m now h
    unfold startSession
    rw [if_pos h]
  · intro m em d1 d2 h1 h2
    unfold endSession
    rw [if_pos ⟨h1, h2⟩]
  · intro m m1 em evs d1 d2 em2 d3 d4 h
    have hc := endSession_true_completed m m1 em d1 d2 evs h
    unfold endSession
    rw [if_pos ⟨(by rw [hc]; decide), (by rw [hc]; decide)⟩]

/-- Claim C7 witness: concrete rejected calls, and a concrete double
`end_session` whose second call fails with no event. -/
theorem claimC7_witness :
    setupSession { initSM with state := SState.active } "Study" 25 [] (some 1) =
        ({ initSM with state := SState.active }, false, []) ∧
      startSession initSM 0 = (initSM, false, []) ∧
      endSession initSM false true true = (initSM, false, []) ∧
      endSession (endSession { initSM with state := SState.active } false true true).1
          false true true =
        ((endSession { initSM with state := SState.active } false true true).1, false, []) :=
  ⟨claimC7.1 { initSM with state := SState.active } "Study" 25 [] (some 1) (by decide),
    claimC7.2.1 initSM 0 (by decide),
    claimC7.2.2.1 initSM false true true (by decide) (by decide),
    claimC7.2.2.2 { initSM with state := SState.active }
      (endSession { initSM with state := SState.active } false true true).1
      false (endSession { initSM with state := SState.active } false true true).2.2
      true true false true true (by decide)⟩

/-! ### Claim C8 -/

/-- Claim C8 counterexample: from IDLE with a previous session name on
record, a `setup_session` whose `create_session` store call raises does
return failure and stays IDLE, but the session name has already been
overwritten with the new value — refuting the claim that all session fields
are unchanged by the failed call. -/
theorem claimC8_counterexample :
    c8Result.2.1 = false ∧
      c8Result.1.state = SState.idle ∧
      c8SM.sessionName = "old" ∧
      c8Result.1.sessionName = "Study" := by
  decide

/-- Claim C8 amended: when `create_session` fails during `setup_session` from
IDLE, the operation returns failure, the machine stays in IDLE, no event is
emitted and the session id is unchanged — but the name, duration, whitelist
and blocked-count fields have already been overwritten with the new call's
arguments before the store call. -/
theorem claimC8_amended (m : SM) (name : String) (dm : Nat) (apps : List String)
    (h : m.state = SState.idle) :
    setupSession m name dm apps none =
      ({ m with sessionName := name, sessionDuration := (dm : Int) * 60,
                whitelistedApps := apps, appsBlockedCount := 0 }, false, []) := by
  unfold setupSession
  rw [if_neg (by simp [h])]

/-- Claim C8 witness: a concrete failed setup from the initial state. -/
theorem claimC8_witness :
    setupSession initSM "Study" 25 ["chrome"] none =
      ({ initSM with sessionName := "Study", sessionDuration := ((25 : Nat) : Int) * 60,
                     whitelistedApps := ["chrome"], appsBlockedCount := 0 }, false, []) :=
  claimC8_amended initSM "Study" 25 ["chrome"] rfl

/-! ### Claim C9 -/

theorem updateSession_nonactive (m : SM) (t : Nat) (d1 d2 : Bool)
    (h : m.state ≠ SState.active) : updateSession m t d1 d2 = (m, []) := by
  unfold updateSession
  rw [if_pos h]

theorem runUpdates_nonactive (ts : List Nat) (m : SM)
    (h : m.state ≠ SState.active) : runUpdates m ts = (m, []) := by
  induction ts with
  | nil => rfl
  | cons t rest ih =>
    simp only [runUpdates]
    rw [updateSession_nonactive m t true true h]
    simp [ih]

/-- Claim C9: during an ACTIVE tick at which the remaining time has reached
0, the update triggers exactly one `end_session(emergency_exit=False)`: the
machine ends in COMPLETED, the tick's emissions contain exactly one
session-ended event, that event carries `emergency_exit = false`, and any
sequence of subsequent ticks emits no further session-ended event. -/
theorem claimC9 (m : SM) (now : Nat) (ts : List Nat)
    (hact : m.state = SState.active)
    (hrem : getRemainingTime m now = 0) :
    (updateSession m now true true).1.state = SState.completed ∧
      (updateSession m now true true).2.filter isEndedEv =
        [SMEvent.sessionEnded m.sessionId false] ∧
      endedCount (runUpdates (updateSession m now true true).1 ts).2 = 0 := by
  have hupd : updateSession m now true true =
      ({ m with state := SState.completed },
        [SMEvent.sessionUpdated (getElapsedTime m now) 0,
         SMEvent.stateChanged SState.ending,
         SMEvent.stateChanged SState.completed,
         SMEvent.sessionEnded m.sessionId false]) := by
    unfold updateSession endSession changeState
    rw [if_neg (by simp [hact]), hrem]
    rw [if_pos (by norm_num)]
    rw [if_neg (by simp [hact])]
    rw [if_pos (by simp [hact] : m.state ≠ SState.ending)]
    simp
  refine ⟨by rw [hupd], by rw [hupd]; rfl, ?_⟩
  rw [hupd]
  rw [runUpdates_nonactive ts _ (by simp)]
  rfl

/-- Claim C9 witness: the 25-minute session started at instant 0 completes at
the tick of instant 1500 with a single non-emergency session-ended event, and
two later ticks emit none. -/
theorem claimC9_witness :
    (updateSession c9SM 1500 true true).1.state = SState.completed ∧
      (updateSession c9SM 1500 true true).2.filter isEndedEv =
        [SMEvent.sessionEnded c9SM.sessionId false] ∧
      endedCount (runUpdates (updateSession c9SM 1500 true true).1 [1501, 1502]).2 = 0 :=
  claimC9 c9SM 1500 [1501, 1502] (by decide) (by decide)

/-! ### Claim C10 -/

theorem scanInitialLoop_known (procs : List Proc) (b : AppBlocker) :
    (scanInitialLoop b procs).knownProcesses =
      procs.foldl (fun m p => mapInsert m p.pid p.name) b.knownProcesses := by
  induction procs generalizing b with
  | nil => rfl
  | cons p rest ih =>
    simp only [scanInitialLoop, List.foldl_cons]
    by_cases h : isWhitelisted { b with knownProcesses := mapInsert b.knownProcesses p.pid p.name } p.name p.exe = true
    · rw [if_pos h, ih]
    · rw [if_neg h, ih]

theorem foldl_mapInsert_fresh (procs : List Proc) (m : List (Nat × String))
    (hfresh : ∀ p ∈ procs, p.pid ∉ mapKeys m)
    (hnd : (procs.map (fun p => p.pid)).Nodup) :
    procs.foldl (fun m p => mapInsert m p.pid p.name) m =
      m ++ procs.map (fun p => (p.pid, p.name)) := by
  induction procs generalizing m with
  | nil => simp
  | cons p rest ih =>
    simp only [List.foldl_cons, List.map_cons]
    have hstep : mapInsert m p.pid p.name = m ++ [(p.pid, p.name)] := by
      unfold mapInsert
      rw [if_neg (hfresh p (List.mem_cons_self p rest))]
    rw [hstep]
    simp only [List.map_cons, List.nodup_cons] at hnd
    have hfresh2 : ∀ q ∈ rest, q.pid ∉ mapKeys (m ++ [(p.pid, p.name)]) := by
      intro q hq hmem
      have hkeys : mapKeys (m ++ [(p.pid, p.name)]) = mapKeys m ++ [p.pid] := by
        unfold mapKeys
        simp
      rw [hkeys] at hmem
      rcases List.mem_append.1 hmem with hm | hm
      · exact hfresh q (List.mem_cons_of_mem p hq) hm
      · rcases List.mem_singleton.1 hm with hqp
        exact hnd.1 (hqp ▸ List.mem_map_of_mem (fun r => r.pid) hq)
    rw [ih _ hfresh2 hnd.2]
    simp

theorem length_filter_named (procs : List Proc) :
    ((procs.map (fun p => (p.pid, p.name))).filter (fun kv => kv.2 ≠ "")).length =
      (procs.filter (fun p => p.name ≠ "")).length := by
  induction procs with
  | nil => rfl
  | cons p rest ih =>
    simp only [List.map_cons, List.filter_cons]
    by_cases h : p.name = ""
    · simp [h]
      simpa using ih
    · simp [h]
      simpa using ih

/-- Claim C10 (implicit): `get_blocked_count` counts the entries of
`known_processes` with a non-empty recorded name, and since the initial scan
records every live process — whitelisted or not — immediately after
`start_monitoring` over a snapshot with distinct pids the count equals the
number of live processes with a non-empty name, not the number of processes
actually blocked. -/
theorem claimC10 (b : AppBlocker) (procs : List Proc)
    (hmon : b.isMonitoring = false)
    (hnd : (procs.map (fun p => p.pid)).Nodup) :
    getBlockedCount (startMonitoring b procs) =
      (procs.filter (fun p => p.name ≠ "")).length := by
  unfold startMonitoring
  rw [if_neg (by simp [hmon])]
  unfold getBlockedCount
  rw [scanInitialLoop_known]
  have h0 : ∀ p ∈ procs, p.pid ∉ mapKeys ([] : List (Nat × String)) := by
    intro p _ hmem
    cases hmem
  rw [show ({ b with isMonitoring := true, knownProcesses := [] } : AppBlocker).knownProcesses
        = ([] : List (Nat × String)) from rfl]
  rw [foldl_mapInsert_fresh procs [] h0 hnd]
  rw [List.nil_append]
  exact length_filter_named procs

/-- Claim C10 witness: on the two-process scenario snapshot (no blocking has
happened yet), the count right after start is already 2. -/
theorem claimC10_witness :
    getBlockedCount (startMonitoring initBlocker scnProcs) =
        (scnProcs.filter (fun p => p.name ≠ "")).length ∧
      (scnProcs.filter (fun p => p.name ≠ "")).length = 2 :=
  ⟨claimC10 initBlocker scnProcs (by decide) (by decide), by decide⟩

end LockIn
